import Mathlib

/-!
Shallow embedding of the HeatSim thermodynamic engine (`src/logic.py`).

Modelling conventions:
* Python floats are modelled as rationals (`ℚ`).  NaN/infinity do not occur
  on the inputs the claims quantify over.
* `round(x, n)` is modelled by `pyRound` (round-half to the nearest multiple
  of `10^-n`); the claims only depend on the bound `|pyRound x n - x| ≤ 10^-n/2`.
* `math.log` and `math.exp` return floats whose values no claim depends on;
  they are parameters of the embedding (`RealFns`).  `math.log` raises
  `ValueError` on a non-positive argument, which is modelled by `plog`
  returning `Except.error`.
* A raised-and-propagating Python exception is `Except.error ()`; a
  `try/except: pass` is a `match` that restores the pre-`try` data.
* A Python dict passed by the GUI is a `List (String × PyVal)`; `PyVal.bad`
  stands for any value on which `float(...)` raises, mirroring `_to_float`.
* Truthiness of a float `x` is `x ≠ 0`; truthiness of `Optional[...]` is
  `isSome` plus non-emptiness / non-zeroness of the payload where Python
  checks it.
-/

/-- One value stored in an input dict: either something `float()` converts
(with its converted value) or something it raises on. -/
inductive PyVal where
  | num (x : ℚ)
  | bad (raw : String)
deriving DecidableEq, Repr

abbrev PyDict := List (String × PyVal)

/-- `logic._to_float` (lines 42-47): `float(x)` with every exception mapped
to `0.0`. -/
def _to_float (v : PyVal) : ℚ :=
  match v with
  | .num x => x
  | .bad _ => 0

/-- Python `d.get(k, 0.0)`: first binding of `k`, else the default `0.0`. -/
def dictGet0 (d : PyDict) (k : String) : PyVal :=
  match d with
  | [] => .num 0
  | p :: rest => if p.1 == k then p.2 else dictGet0 rest k

/-- `_to_float(d.get(k, 0.0))`, the only way the engine reads a dict field. -/
def readQ (d : PyDict) (k : String) : ℚ :=
  _to_float (dictGet0 d k)

/-- Python `round(x, n)` (model: round-half to `10^-n` grid). -/
def pyRound (x : ℚ) (n : ℕ) : ℚ :=
  (round (x * 10 ^ n) : ℚ) / 10 ^ n

/-- The transcendental functions of `math` used by the engine, kept
abstract: no claim depends on their actual values. -/
structure RealFns where
  lg : ℚ → ℚ
  ex : ℚ → ℚ

/-- `math.log` including its `ValueError` on a non-positive argument. -/
def plog (R : RealFns) (x : ℚ) : Except Unit ℚ :=
  if x ≤ 0 then .error () else .ok (R.lg x)

/-- `logic.Component` (lines 262-268). -/
structure Component where
  Share : ℚ
  T_b : ℚ
  C_f : ℚ
  C_p : ℚ
  r_f : ℚ := 0
deriving DecidableEq, Repr

/-- `logic.FlowState` (lines 271-305). -/
structure FlowState where
  T_in_cold : ℚ := 0
  T_out_cold : ℚ := 0
  T_in_hot : ℚ := 0
  T_out_hot : ℚ := 0
  g_cold : ℚ := 0
  g_hot : ℚ := 0
  Q : ℚ := 0
  K : ℚ := 0
  Sigma : ℚ := 0
  W_cold : ℚ := 0
  W_hot : ℚ := 0
  W : ℚ := 0
  A : ℚ := 0
  B : ℚ := 0
  countCold : ℕ := 0
  countHot : ℕ := 0
  schema : String := "Schema1"
  contact_type : Option String := none
deriving DecidableEq, Repr

/-- `logic._capacity_from_components` (lines 308-309). -/
def _capacity_from_components (components : List Component) (T_ref : ℚ) : ℚ :=
  components.foldl (fun s c => s + c.Share * (if T_ref < c.T_b then c.C_f else c.C_p)) 0

/-- `weighted_Cf` nested inside `calculate` (lines 93-102): effective
specific heat of a mixture given as a list of dicts. -/
def weighted_Cf (mix : List PyDict) (t_ref : ℚ) : ℚ :=
  mix.foldl (fun s comp =>
    s + readQ comp "share" *
      (if t_ref < readQ comp "tb" then readQ comp "cf" else readQ comp "cp")) 0

/-- `to_components` nested inside `calculate` (lines 146-158): each dict item
is turned into a `Component`; for dict items the per-item `try` never fires. -/
def to_components (mix : List PyDict) : List Component :=
  mix.map (fun item =>
    { Share := readQ item "share"
      T_b := readQ item "tb"
      C_f := readQ item "cf"
      C_p := readQ item "cp"
      r_f := readQ item "rf" })

/-- `logic._get_contact_type` (lines 353-369). -/
def _get_contact_type (state : FlowState) (cold_components hot_components : List Component) : String :=
  let isColdBoiling := cold_components.any (fun c =>
    decide (state.T_in_cold < c.T_b) && decide (state.T_out_cold > c.T_b))
  let isHotCondensing := hot_components.any (fun c =>
    decide (state.T_in_hot > c.T_b) && decide (state.T_out_hot < c.T_b))
  if !isHotCondensing && !isColdBoiling then "dd"
  else if !isHotCondensing && isColdBoiling then "db"
  else if isHotCondensing && isColdBoiling then "cb"
  else "cd"

/-- `logic._sigma_dd` (lines 372-381).  The two `math.log` calls are not
wrapped in a `try`, so a non-positive argument propagates an exception. -/
def _sigma_dd (R : RealFns) (state : FlowState) : Except Unit FlowState :=
  if state.W_hot ≠ 0 ∧ state.W_cold ≠ 0 ∧ state.T_in_hot ≠ 0 ∧ state.T_in_cold ≠ 0 ∧ state.Q ≠ 0 then
    let Th_out := state.T_in_hot - state.Q / state.W_hot
    let Tc_out := state.T_in_cold + state.Q / state.W_cold
    match plog R (Th_out / state.T_in_hot), plog R (Tc_out / state.T_in_cold) with
    | .ok l1, .ok l2 =>
        .ok { state with Sigma := pyRound (state.W_hot * l1 + state.W_cold * l2) 5 }
    | _, _ => .error ()
  else .ok state

/-- `logic._k_dd` (lines 384-402); its internal `try` swallows the
`ValueError` of a non-positive log argument. -/
def _k_dd (R : RealFns) (state : FlowState) : FlowState :=
  if state.A ≠ 0 ∧ state.W_hot ≠ 0 ∧ state.W_cold ≠ 0 ∧ state.T_in_hot ≠ 0 ∧ state.T_in_cold ≠ 0 ∧ state.Q ≠ 0 then
    let Th_out := state.T_in_hot - state.Q / state.W_hot
    let Tc_out := state.T_in_cold + state.Q / state.W_cold
    let numerator := Th_out - Tc_out
    let denominator := state.T_in_hot - state.T_in_cold
    if denominator ≠ 0 ∧ state.A ≠ 0 ∧ numerator > 0 then
      match plog R (numerator / denominator) with
      | .ok l => { state with K := pyRound ((1 / state.A) * l) 5 }
      | .error _ => state
    else state
  else state

/-- `logic._sigma_db` (lines 405-423); only the hot-side log is inside a
`try`, `state.Sigma` is assigned afterwards in every case. -/
def _sigma_db (R : RealFns) (state : FlowState) (cold_components : List Component) : FlowState :=
  let acc := cold_components.foldl (fun a c =>
    if state.T_in_cold < c.T_b ∧ c.T_b < state.T_out_cold then
      if c.T_b ≠ 0 then a + (state.g_cold * c.Share * c.r_f) / c.T_b else a
    else a) 0
  let acc :=
    if state.W_hot ≠ 0 ∧ state.T_in_hot ≠ 0 then
      let Th_out := if state.Q ≠ 0 ∧ state.W_hot ≠ 0 then state.T_in_hot - state.Q / state.W_hot
        else state.T_out_hot
      if Th_out ≠ 0 ∧ Th_out > 0 then
        match plog R (Th_out / state.T_in_hot) with
        | .ok l => acc + state.W_hot * l
        | .error _ => acc
      else acc
    else acc
  { state with Sigma := pyRound acc 5 }

/-- `logic._k_db` (lines 426-433). -/
def _k_db (state : FlowState) (cold_components : List Component) : FlowState :=
  let cand := (cold_components.filter (fun c =>
    decide (state.T_in_cold < c.T_b) && decide (c.T_b < state.T_out_cold))).map Component.T_b
  if cand ≠ [] ∧ state.T_in_hot ≠ 0 then
    let Tb_mean := cand.foldl (· + ·) 0 / (cand.length : ℚ)
    if state.T_in_hot - Tb_mean ≠ 0 then
      { state with K := pyRound (state.Q / (state.T_in_hot - Tb_mean)) 5 }
    else state
  else state

/-- `logic._sigma_cb` (lines 436-446). -/
def _sigma_cb (state : FlowState) (cold_components hot_components : List Component) : FlowState :=
  let acc := cold_components.foldl (fun a c =>
    if (state.T_in_cold < c.T_b ∧ c.T_b < state.T_out_cold) ∧ c.T_b ≠ 0 then
      a + (state.g_cold * c.Share * c.r_f) / c.T_b
    else a) 0
  let acc := hot_components.foldl (fun a c =>
    if (state.T_in_hot > c.T_b ∧ c.T_b > state.T_out_hot) ∧ c.T_b ≠ 0 then
      a - (state.g_hot * c.Share * c.r_f) / c.T_b
    else a) acc
  { state with Sigma := pyRound acc 5 }

/-- `logic._k_cb` (lines 449-460). -/
def _k_cb (state : FlowState) (cold_components hot_components : List Component) : FlowState :=
  let cold_tb := (cold_components.filter (fun c =>
    decide (state.T_in_cold < c.T_b) && decide (c.T_b < state.T_out_cold))).map Component.T_b
  let hot_tb := (hot_components.filter (fun c =>
    decide (state.T_in_hot > c.T_b) && decide (c.T_b > state.T_out_hot))).map Component.T_b
  if cold_tb ≠ [] ∧ hot_tb ≠ [] then
    let Tb_cold := cold_tb.foldl (· + ·) 0 / (cold_tb.length : ℚ)
    let Tb_hot := hot_tb.foldl (· + ·) 0 / (hot_tb.length : ℚ)
    if Tb_hot - Tb_cold ≠ 0 then
      { state with K := pyRound (state.Q / (Tb_hot - Tb_cold)) 5 }
    else state
  else state

/-- `logic._sigma_cd` (lines 463-480). -/
def _sigma_cd (R : RealFns) (state : FlowState) (hot_components : List Component) : FlowState :=
  let acc := hot_components.foldl (fun a c =>
    if (state.T_in_hot > c.T_b ∧ c.T_b > state.T_out_hot) ∧ c.T_b ≠ 0 then
      a - (state.g_hot * c.Share * c.r_f) / c.T_b
    else a) 0
  let acc :=
    if state.W_cold ≠ 0 ∧ state.T_in_cold ≠ 0 then
      let Tc_out := if state.Q ≠ 0 ∧ state.W_cold ≠ 0 then state.T_in_cold + state.Q / state.W_cold
        else state.T_out_cold
      if Tc_out ≠ 0 ∧ Tc_out > 0 then
        match plog R (Tc_out / state.T_in_cold) with
        | .ok l => acc + state.W_cold * l
        | .error _ => acc
      else acc
    else acc
  { state with Sigma := pyRound acc 5 }

/-- `logic._k_cd` (lines 483-488). -/
def _k_cd (state : FlowState) (hot_components : List Component) : FlowState :=
  let cand := (hot_components.filter (fun c =>
    decide (state.T_in_hot > c.T_b) && decide (c.T_b > state.T_out_hot))).map Component.T_b
  if cand ≠ [] then
    let Tb_mean := cand.foldl (· + ·) 0 / (cand.length : ℚ)
    if Tb_mean - state.T_in_cold ≠ 0 then
      { state with K := pyRound (state.Q / (Tb_mean - state.T_in_cold)) 5 }
    else state
  else state

/-- `logic._schema1` (lines 491-498). -/
def _schema1 (state : FlowState) : FlowState :=
  let delta := state.T_out_hot - state.T_out_cold
  if delta ≠ 0 then
    if state.Q > 0 ∧ state.K = 0 then
      { state with K := pyRound (state.Q / delta) 5 }
    else if state.K > 0 ∧ state.Q = 0 then
      { state with Q := pyRound (state.K * delta) 5 }
    else state
  else state

/-- `logic._schema2` (lines 501-519); the log argument is checked positive
before the call, so the internal `try` observes no exception. -/
def _schema2 (R : RealFns) (state : FlowState) : FlowState :=
  if state.B ≠ 0 then
    if state.Q > 0 ∧ state.K = 0 then
      let denom := state.T_in_hot - state.T_in_cold - state.B * state.Q
      if denom ≠ 0 ∧ (state.T_in_hot - state.T_in_cold) / denom > 0 then
        { state with K := pyRound ((1 / state.B) * R.lg ((state.T_in_hot - state.T_in_cold) / denom)) 5 }
      else state
    else if state.K > 0 ∧ state.Q = 0 then
      { state with Q := pyRound ((1 / state.B) * (state.T_in_hot - state.T_in_cold) * (1 - R.ex (-(state.K * state.B)))) 5 }
    else state
  else state

/-- `logic._schema3` (lines 522-540). -/
def _schema3 (R : RealFns) (state : FlowState) : FlowState :=
  if state.W_hot ≠ 0 then
    if state.Q > 0 ∧ state.K = 0 then
      let denom := state.T_in_hot - state.T_out_hot - state.Q / state.W_hot
      if denom ≠ 0 ∧ (state.T_in_hot - state.T_out_cold) / denom > 0 then
        { state with K := pyRound (state.W_hot * R.lg ((state.T_in_hot - state.T_out_cold) / denom)) 5 }
      else state
    else if state.K > 0 ∧ state.Q = 0 then
      { state with Q := pyRound (state.W_cold * (state.T_in_hot - state.T_out_cold) * (1 - R.ex (-(state.K / state.W_hot)))) 5 }
    else state
  else state

/-- `logic._schema4` (lines 543-561). -/
def _schema4 (R : RealFns) (state : FlowState) : FlowState :=
  if state.W_cold ≠ 0 then
    if state.Q > 0 ∧ state.K = 0 then
      let denom := state.T_out_hot - state.T_in_cold - state.Q / state.W_cold
      if denom ≠ 0 ∧ (state.T_out_hot - state.T_in_cold) / denom > 0 then
        { state with K := pyRound (state.W_cold * R.lg ((state.T_out_hot - state.T_in_cold) / denom)) 5 }
      else state
    else if state.K > 0 ∧ state.Q = 0 then
      { state with Q := pyRound (state.W_cold * (state.T_out_hot - state.T_in_cold) * (1 - R.ex (-(state.K / state.W_cold)))) 5 }
    else state
  else state

/-- `logic._schema5` (lines 564-595).  Both the forward solve and the
equal-capacity special case sit inside `if state.A:`.  In the inverse
branch `state.Q` is assigned before the `W + K` division, whose
`ZeroDivisionError` is swallowed by the `try`, so that assignment persists. -/
def _schema5 (R : RealFns) (state : FlowState) : FlowState :=
  if state.A ≠ 0 then
    if state.Q > 0 ∧ state.K = 0 then
      let denom := state.T_out_hot - state.T_in_cold
      let s1 :=
        if denom ≠ 0 ∧ (denom + state.A * state.Q) / denom > 0 then
          { state with K := pyRound ((1 / state.A) * R.lg ((denom + state.A * state.Q) / denom)) 5 }
        else state
      if s1.W_cold = s1.W_hot ∧ s1.W_cold ≠ 0 ∧ s1.K = 0 then
        let s2 := { s1 with W := s1.W_cold }
        let denom2 := s2.T_in_hot - s2.T_in_cold - s2.Q / s2.W
        if denom2 ≠ 0 then { s2 with K := pyRound (s2.Q / denom2) 5 } else s2
      else s1
    else if state.K > 0 ∧ state.Q = 0 then
      let s1 := { state with Q := pyRound ((1 / state.A) * (state.T_out_hot - state.T_in_cold) * (R.ex (state.K * state.A) - 1)) 5 }
      if s1.W_cold = s1.W_hot ∧ s1.W_cold ≠ 0 then
        let s2 := { s1 with W := s1.W_cold }
        if s2.W + s2.K = 0 then s2
        else { s2 with Q := pyRound ((s2.W * (s2.T_in_hot - s2.T_in_cold) * s2.K) / (s2.W + s2.K)) 5 }
      else s1
    else state
  else state

/-- The `schema_map.get(state.schema, _schema1)` dispatch of `full`
(lines 617-625): unknown selectors fall back to `_schema1`. -/
def schema_dispatch (R : RealFns) (state : FlowState) : FlowState :=
  if state.schema = "Schema2" then _schema2 R state
  else if state.schema = "Schema3" then _schema3 R state
  else if state.schema = "Schema4" then _schema4 R state
  else if state.schema = "Schema5" then _schema5 R state
  else _schema1 state

/-- `logic.full`, lines 601-607: fill in the capacity rates when the
component lists are non-empty. -/
def full_setW (state : FlowState) (cold_components hot_components : List Component) : FlowState :=
  let s1 := if cold_components ≠ [] then
      { state with W_cold := state.g_cold * _capacity_from_components cold_components state.T_in_cold }
    else state
  if hot_components ≠ [] then
    { s1 with W_hot := s1.g_hot * _capacity_from_components hot_components s1.T_in_hot }
  else s1

/-- `logic.full`, lines 609-611: the auxiliary coefficients A and B. -/
def full_setAB (state : FlowState) : FlowState :=
  if state.W_cold ≠ 0 ∧ state.W_hot ≠ 0 then
    { state with A := (state.W_cold - state.W_hot) / (state.W_hot * state.W_cold)
                 B := (state.W_cold + state.W_hot) / (state.W_hot * state.W_cold) }
  else state

/-- `logic.full`, lines 615-644 (single-component regime): schema dispatch
followed by the uniform sigma recomputation; a `ValueError` from either log
is swallowed by the inner `try`. -/
def full_single (R : RealFns) (state : FlowState) : FlowState :=
  let s4 := schema_dispatch R state
  if s4.W_hot ≠ 0 ∧ s4.W_cold ≠ 0 ∧ s4.T_out_hot ≠ 0 ∧ s4.T_in_hot ≠ 0 ∧ s4.T_out_cold ≠ 0 ∧ s4.T_in_cold ≠ 0 then
    match plog R (s4.T_out_hot / s4.T_in_hot), plog R (s4.T_out_cold / s4.T_in_cold) with
    | .ok l1, .ok l2 => { s4 with Sigma := pyRound (s4.W_hot * l1 + s4.W_cold * l2) 5 }
    | _, _ => s4
  else s4

/-- `logic.full`, lines 645-659 (multi-component regime): classify the
contact type and run that regime's sigma/K pair.  Only `_sigma_dd` can
raise out of this. -/
def full_multi (R : RealFns) (state : FlowState) (cold_components hot_components : List Component) :
    Except Unit FlowState :=
  let ct := _get_contact_type state cold_components hot_components
  let s4 := { state with contact_type := some ct }
  if ct = "dd" then
    match _sigma_dd R s4 with
    | .ok s5 => .ok (_k_dd R s5)
    | .error e => .error e
  else if ct = "db" then .ok (_k_db (_sigma_db R s4 cold_components) cold_components)
  else if ct = "cb" then .ok (_k_cb (_sigma_cb s4 cold_components hot_components) cold_components hot_components)
  else if ct = "cd" then .ok (_k_cd (_sigma_cd R s4 hot_components) hot_components)
  else .ok s4

/-- `logic.full` (lines 598-661) assembled.  The only exception that can
escape is the one raised inside `_sigma_dd`. -/
def full (R : RealFns) (state : FlowState) (cold_components hot_components : List Component) :
    Except Unit FlowState :=
  let s3 := full_setAB (full_setW state cold_components hot_components)
  if cold_components.length > 1 ∨ hot_components.length > 1 then
    full_multi R s3 cold_components hot_components
  else
    .ok (full_single R s3)

/-- The output dict of `calculate`: `q` / `t_out_plus` model optional keys,
the remaining fields are always present with the defaults of line 104. -/
structure CalcOut where
  q : Option ℚ := none
  t_out_plus : Option ℚ := none
  sigma : ℚ := 0
  k : ℚ := 0
  k_source : String := ""
  contact_type : String := ""
deriving DecidableEq, Repr

/-- Step 1 of `calculate` (lines 119-127): infer Q when the hint is zero.
Returns the output so far and the (unrounded) local `q`. -/
def step1q (cold hot : PyDict) (cold_mix : List PyDict) (q0 : ℚ) : CalcOut × ℚ :=
  let t_in_cold := readQ cold "t_in"
  let t_out_cold := readQ cold "t_out"
  let t_in_hot := readQ hot "t_in"
  let t_out_hot := readQ hot "t_out"
  let g_cold := readQ cold "m"
  let Cf_cold := weighted_Cf cold_mix t_in_cold
  if q0 = 0 ∧ t_in_cold ≠ 0 ∧ t_out_cold ≠ 0 ∧ t_in_hot ≠ 0 ∧ t_out_hot ≠ 0 ∧ g_cold > 0 then
    if Cf_cold > 0 then
      let W_cold := g_cold * Cf_cold
      let q_est := (t_in_hot - t_out_hot) * W_cold
      ({ q := some (pyRound q_est 6) }, q_est)
    else ({}, q0)
  else ({}, q0)

/-- Step 2 of `calculate` (lines 129-140): infer the hot outlet when Q is
known and the outlet is absent.  Returns the updated output and the
(unrounded) local `t_out_hot`. -/
def step2t (hot : PyDict) (hot_mix : List PyDict) (out1 : CalcOut) (q : ℚ) : CalcOut × ℚ :=
  let t_in_hot := readQ hot "t_in"
  let t_out_hot := readQ hot "t_out"
  let g_hot := readQ hot "m"
  let Cf_hot := weighted_Cf hot_mix t_in_hot
  if q ≠ 0 ∧ t_out_hot = 0 ∧ t_in_hot ≠ 0 ∧ g_hot > 0 ∧ Cf_hot > 0 then
    let W_hot := g_hot * Cf_hot
    if W_hot > 0 then
      let t_out_plus := t_in_hot - q / W_hot
      ({ out1 with t_out_plus := some (pyRound t_out_plus 6) }, t_out_plus)
    else (out1, t_out_hot)
  else (out1, t_out_hot)

/-- Lines 180-181 of `calculate`: copy `fs.Q` into the output when the
`q` key is not already present. -/
def syncQ (out : CalcOut) (fs : FlowState) : CalcOut :=
  if fs.Q ≠ 0 ∧ out.q = none then { out with q := some (pyRound fs.Q 6) } else out

/-- Lines 185-189 of `calculate`: copy non-zero `Sigma`/`K` into the output;
a copied `K` is tagged "schema/contact". -/
def syncSigmaK (out : CalcOut) (fs : FlowState) : CalcOut :=
  let o1 := if fs.Sigma ≠ 0 then { out with sigma := fs.Sigma } else out
  if fs.K ≠ 0 then { o1 with k := fs.K, k_source := "schema/contact" } else o1

/-- Lines 190-208 of `calculate`: the "mean_delta" K fallback.  A stream's
mean temperature exists only when BOTH its inlet and outlet are non-zero
(`Th_mean`/`Tc_mean` stay `None` otherwise, and `if Th_mean and Tc_mean:`
also rejects a zero mean). -/
def meanDeltaFallback (q : ℚ) (out : CalcOut) (fs : FlowState) : CalcOut :=
  if fs.K = 0 ∧ fs.Sigma ≠ 0 ∧ (fs.Q ≠ 0 ∨ q ≠ 0) then
    let Th_mean : Option ℚ :=
      if fs.T_in_hot ≠ 0 ∧ fs.T_out_hot ≠ 0 then some (1 / 2 * (fs.T_in_hot + fs.T_out_hot)) else none
    let Tc_mean : Option ℚ :=
      if fs.T_in_cold ≠ 0 ∧ fs.T_out_cold ≠ 0 then some (1 / 2 * (fs.T_in_cold + fs.T_out_cold)) else none
    match Th_mean, Tc_mean with
    | some th, some tc =>
      if th ≠ 0 ∧ tc ≠ 0 then
        let delta_mean := th - tc
        if delta_mean > 0 then
          let q_used := if fs.Q ≠ 0 then fs.Q else q
          { out with k := pyRound (q_used / delta_mean) 6, k_source := "mean_delta" }
        else out
      else out
    | _, _ => out
  else out

/-- Lines 209-211 of `calculate`: expose a truthy contact type. -/
def syncContact (out : CalcOut) (fs : FlowState) : CalcOut :=
  match fs.contact_type with
  | some ct => if ct ≠ "" then { out with contact_type := ct } else out
  | none => out

/-- Lines 212-237 of `calculate`: the "lmtd" K fallback.  It re-checks
`fs.K` (not the output field written by "mean_delta", which it may
overwrite).  The division by `math.log(dT1/dT2)` raises
`ZeroDivisionError` (caught by the `try`) when the log is zero. -/
def lmtdFallback (R : RealFns) (q t_in_cold t_out_cold t_in_hot t_out_hot : ℚ)
    (out : CalcOut) (fs : FlowState) : CalcOut :=
  if fs.K = 0 ∧ (q ≠ 0 ∨ fs.Q ≠ 0) ∧ t_in_hot ≠ 0 ∧ t_out_hot ≠ 0 ∧ t_in_cold ≠ 0 ∧ t_out_cold ≠ 0 then
    let q_used := if fs.Q ≠ 0 then fs.Q else q
    let dT1 := t_in_hot - t_out_cold
    let dT2 := t_out_hot - t_in_cold
    if dT1 > 0 ∧ dT2 > 0 ∧ dT1 ≠ dT2 then
      let lv := R.lg (dT1 / dT2)
      if lv = 0 then out
      else
        let lmtd := (dT1 - dT2) / lv
        if lmtd > 0 then { out with k := pyRound (q_used / lmtd) 6, k_source := "lmtd" } else out
    else if dT1 = dT2 ∧ dT1 > 0 then
      { out with k := pyRound (q_used / dT1) 6, k_source := "lmtd" }
    else out
  else out

/-- Lines 178-237 of `calculate` assembled in source order. -/
def postProcess (R : RealFns) (q t_in_cold t_out_cold t_in_hot t_out_hot : ℚ)
    (out0 : CalcOut) (fs : FlowState) : CalcOut :=
  lmtdFallback R q t_in_cold t_out_cold t_in_hot t_out_hot
    (syncContact (meanDeltaFallback q (syncSigmaK (syncQ out0 fs) fs) fs) fs) fs

/-- `logic.calculate` (lines 74-249).  The outer `try` around lines 143-239
catches the only escapable exception (from `_sigma_dd` inside `full`), in
which case the output collected before the block is returned; the final
`float(...)` normalisation loop is the identity on this model. -/
def calculate (R : RealFns) (cold hot : PyDict) (cold_mix hot_mix : List PyDict)
    (q0 : ℚ) (schema : String) : CalcOut :=
  let s1 := step1q cold hot cold_mix q0
  let s2 := step2t hot hot_mix s1.1 s1.2
  let fs : FlowState :=
    { T_in_cold := readQ cold "t_in"
      T_out_cold := readQ cold "t_out"
      T_in_hot := readQ hot "t_in"
      T_out_hot := s2.2
      g_cold := readQ cold "m"
      g_hot := readQ hot "m"
      Q := s1.2
      schema := schema }
  match full R fs (to_components cold_mix) (to_components hot_mix) with
  | .error _ => s2.1
  | .ok fs2 => postProcess R s1.2 (readQ cold "t_in") (readQ cold "t_out") (readQ hot "t_in") s2.2 s2.1 fs2

/-! ### Projection lemmas: which output fields each step can write -/

lemma syncQ_proj (out : CalcOut) (fs : FlowState) :
    (syncQ out fs).t_out_plus = out.t_out_plus ∧ (syncQ out fs).sigma = out.sigma ∧
    (syncQ out fs).k = out.k ∧ (syncQ out fs).k_source = out.k_source ∧
    (syncQ out fs).contact_type = out.contact_type := by
  simp only [syncQ]; split <;> exact ⟨rfl, rfl, rfl, rfl, rfl⟩

lemma syncQ_q_some (out : CalcOut) (fs : FlowState) (v : ℚ) (h : out.q = some v) :
    (syncQ out fs).q = some v := by
  simp only [syncQ]; split <;> simp_all

lemma syncQ_q_of_Q (out : CalcOut) (fs : FlowState) (hQ : fs.Q ≠ 0) (h : out.q = none) :
    (syncQ out fs).q = some (pyRound fs.Q 6) := by
  simp only [syncQ]; rw [if_pos ⟨hQ, h⟩]

lemma syncSigmaK_proj (out : CalcOut) (fs : FlowState) :
    (syncSigmaK out fs).q = out.q ∧ (syncSigmaK out fs).t_out_plus = out.t_out_plus ∧
    (syncSigmaK out fs).contact_type = out.contact_type := by
  simp only [syncSigmaK]; repeat' split
  all_goals exact ⟨rfl, rfl, rfl⟩

lemma meanDelta_proj (q : ℚ) (out : CalcOut) (fs : FlowState) :
    (meanDeltaFallback q out fs).q = out.q ∧
    (meanDeltaFallback q out fs).t_out_plus = out.t_out_plus ∧
    (meanDeltaFallback q out fs).sigma = out.sigma ∧
    (meanDeltaFallback q out fs).contact_type = out.contact_type := by
  simp only [meanDeltaFallback]; repeat' split
  all_goals exact ⟨rfl, rfl, rfl, rfl⟩

lemma syncContact_proj (out : CalcOut) (fs : FlowState) :
    (syncContact out fs).q = out.q ∧ (syncContact out fs).t_out_plus = out.t_out_plus ∧
    (syncContact out fs).sigma = out.sigma ∧ (syncContact out fs).k = out.k ∧
    (syncContact out fs).k_source = out.k_source := by
  simp only [syncContact]; repeat' split
  all_goals exact ⟨rfl, rfl, rfl, rfl, rfl⟩

lemma lmtd_proj (R : RealFns) (q a b c d : ℚ) (out : CalcOut) (fs : FlowState) :
    (lmtdFallback R q a b c d out fs).q = out.q ∧
    (lmtdFallback R q a b c d out fs).t_out_plus = out.t_out_plus ∧
    (lmtdFallback R q a b c d out fs).sigma = out.sigma ∧
    (lmtdFallback R q a b c d out fs).contact_type = out.contact_type := by
  simp only [lmtdFallback]; repeat' split
  all_goals exact ⟨rfl, rfl, rfl, rfl⟩

lemma postProcess_q_some (R : RealFns) (q a b c d : ℚ) (out0 : CalcOut) (fs : FlowState)
    (v : ℚ) (h : out0.q = some v) :
    (postProcess R q a b c d out0 fs).q = some v := by
  simp only [postProcess]
  rw [(lmtd_proj R q a b c d _ fs).1, (syncContact_proj _ fs).1, (meanDelta_proj q _ fs).1,
    (syncSigmaK_proj _ fs).1, syncQ_q_some out0 fs v h]

lemma postProcess_tplus (R : RealFns) (q a b c d : ℚ) (out0 : CalcOut) (fs : FlowState) :
    (postProcess R q a b c d out0 fs).t_out_plus = out0.t_out_plus := by
  simp only [postProcess]
  rw [(lmtd_proj R q a b c d _ fs).2.1, (syncContact_proj _ fs).2.1, (meanDelta_proj q _ fs).2.1,
    (syncSigmaK_proj _ fs).2.1, (syncQ_proj out0 fs).1]

lemma step2t_fst_proj (hot : PyDict) (hm : List PyDict) (o : CalcOut) (q : ℚ) :
    (step2t hot hm o q).1.q = o.q ∧ (step2t hot hm o q).1.sigma = o.sigma ∧
    (step2t hot hm o q).1.k = o.k ∧ (step2t hot hm o q).1.k_source = o.k_source ∧
    (step2t hot hm o q).1.contact_type = o.contact_type := by
  simp only [step2t]; repeat' split
  all_goals exact ⟨rfl, rfl, rfl, rfl, rfl⟩

lemma step1q_fst_defaults (cold hot : PyDict) (cm : List PyDict) (q0 : ℚ) :
    (step1q cold hot cm q0).1.t_out_plus = none ∧ (step1q cold hot cm q0).1.sigma = 0 ∧
    (step1q cold hot cm q0).1.k = 0 ∧ (step1q cold hot cm q0).1.k_source = "" ∧
    (step1q cold hot cm q0).1.contact_type = "" := by
  simp only [step1q]; repeat' split
  all_goals exact ⟨rfl, rfl, rfl, rfl, rfl⟩

/-- The zero stand-in for `math.log` / `math.exp` used in concrete runs whose
conclusions do not depend on the transcendental values. -/
def logZero : RealFns := ⟨fun _ => 0, fun _ => 0⟩

/-! ### Lifting output-field facts through `calculate` -/


/-! ### Lifting output-field facts through `calculate` -/

lemma calculate_q_some (R : RealFns) (cold hot : PyDict) (cm hm : List PyDict)
    (q0 : ℚ) (sch : String) (v : ℚ) (h : (step1q cold hot cm q0).1.q = some v) :
    (calculate R cold hot cm hm q0 sch).q = some v := by
  simp only [calculate]
  split
  · rw [(step2t_fst_proj hot hm _ _).1]; exact h
  · exact postProcess_q_some _ _ _ _ _ _ _ _ v
      (by rw [(step2t_fst_proj hot hm _ _).1]; exact h)

lemma calculate_tplus (R : RealFns) (cold hot : PyDict) (cm hm : List PyDict)
    (q0 : ℚ) (sch : String) :
    (calculate R cold hot cm hm q0 sch).t_out_plus =
      (step2t hot hm (step1q cold hot cm q0).1 (step1q cold hot cm q0).2).1.t_out_plus := by
  simp only [calculate]
  split
  · rfl
  · exact postProcess_tplus _ _ _ _ _ _ _ _

/-- Step 1 of `calculate` in the situation of claim C1: zero hint, truthy
temperatures, positive cold flow and positive cold capacity. -/
lemma step1q_fires (cold hot : PyDict) (cm : List PyDict)
    (h1 : readQ cold "t_in" ≠ 0) (h2 : readQ cold "t_out" ≠ 0)
    (h3 : readQ hot "t_in" ≠ 0) (h4 : readQ hot "t_out" ≠ 0)
    (h5 : readQ cold "m" > 0) (hCf : weighted_Cf cm (readQ cold "t_in") > 0) :
    step1q cold hot cm 0 =
      ({ q := some (pyRound ((readQ hot "t_in" - readQ hot "t_out") *
          (readQ cold "m" * weighted_Cf cm (readQ cold "t_in"))) 6) },
        (readQ hot "t_in" - readQ hot "t_out") *
          (readQ cold "m" * weighted_Cf cm (readQ cold "t_in"))) := by
  simp only [step1q]
  repeat' split
  all_goals simp_all

/-- Claim C1: with a zero heat-duty hint, all four temperatures non-zero,
cold flow rate > 0 and cold-side capacity rate `W_cold > 0`, the output
contains `q = round((T_in_hot - T_out_hot) * W_cold, 6)` — the hot-side
temperature difference multiplied by the COLD-side capacity rate. -/
theorem c1_q_inference (R : RealFns) (cold hot : PyDict) (cold_mix hot_mix : List PyDict)
    (schema : String)
    (h1 : readQ cold "t_in" ≠ 0) (h2 : readQ cold "t_out" ≠ 0)
    (h3 : readQ hot "t_in" ≠ 0) (h4 : readQ hot "t_out" ≠ 0)
    (h5 : readQ cold "m" > 0)
    (h6 : readQ cold "m" * weighted_Cf cold_mix (readQ cold "t_in") > 0) :
    (calculate R cold hot cold_mix hot_mix 0 schema).q =
      some (pyRound ((readQ hot "t_in" - readQ hot "t_out") *
        (readQ cold "m" * weighted_Cf cold_mix (readQ cold "t_in"))) 6) := by
  have hCf : weighted_Cf cold_mix (readQ cold "t_in") > 0 := by
    rcases mul_pos_iff.mp h6 with ⟨_, h⟩ | ⟨hg, _⟩
    · exact h
    · linarith
  exact calculate_q_some R cold hot cold_mix hot_mix 0 schema _
    (by rw [step1q_fires cold hot cold_mix h1 h2 h3 h4 h5 hCf])

/-- The running single-component example: cold 290→300 K at 1 kg/s,
hot 350→330 K at 1 kg/s, one component with c = 4.2 below T_b = 373 K. -/
def exCold : PyDict := [("t_in", .num 290), ("t_out", .num 300), ("m", .num 1)]

def exHot : PyDict := [("t_in", .num 350), ("t_out", .num 330), ("m", .num 1)]

def exMix : List PyDict :=
  [[("share", .num 1), ("tb", .num 373), ("cf", .num (21 / 5)), ("cp", .num (21 / 5))]]

theorem c1_q_inference_witness :
    (readQ exCold "t_in" ≠ 0 ∧ readQ exCold "t_out" ≠ 0 ∧ readQ exHot "t_in" ≠ 0 ∧
      readQ exHot "t_out" ≠ 0 ∧ readQ exCold "m" > 0 ∧
      readQ exCold "m" * weighted_Cf exMix (readQ exCold "t_in") > 0) ∧
    (calculate logZero exCold exHot exMix exMix 0 "Schema1").q = some 84 := by
  constructor
  · refine ⟨?_, ?_, ?_, ?_, ?_, ?_⟩ <;>
      norm_num +decide [readQ, dictGet0, _to_float, weighted_Cf, exCold, exHot, exMix]
  · rw [c1_q_inference logZero exCold exHot exMix exMix "Schema1"
      (by norm_num +decide [readQ, dictGet0, _to_float, exCold])
      (by norm_num +decide [readQ, dictGet0, _to_float, exCold])
      (by norm_num +decide [readQ, dictGet0, _to_float, exHot])
      (by norm_num +decide [readQ, dictGet0, _to_float, exHot])
      (by norm_num +decide [readQ, dictGet0, _to_float, exCold])
      (by norm_num +decide [readQ, dictGet0, _to_float, weighted_Cf, exCold, exMix])]
    norm_num +decide [readQ, dictGet0, _to_float, weighted_Cf, pyRound, round_eq, exCold, exHot, exMix,
      List.find?]

/-! ### Contact-type and k_source invariants (claim C2) -/

lemma _get_contact_type_mem (s : FlowState) (cc hc : List Component) :
    _get_contact_type s cc hc = "dd" ∨ _get_contact_type s cc hc = "db" ∨
    _get_contact_type s cc hc = "cb" ∨ _get_contact_type s cc hc = "cd" := by
  simp only [_get_contact_type]
  repeat' split
  all_goals simp

lemma _schema1_ct (s : FlowState) : (_schema1 s).contact_type = s.contact_type := by
  simp only [_schema1]; repeat' split
  all_goals rfl

lemma _schema2_ct (R : RealFns) (s : FlowState) : (_schema2 R s).contact_type = s.contact_type := by
  simp only [_schema2]; repeat' split
  all_goals rfl

lemma _schema3_ct (R : RealFns) (s : FlowState) : (_schema3 R s).contact_type = s.contact_type := by
  simp only [_schema3]; repeat' split
  all_goals rfl

lemma _schema4_ct (R : RealFns) (s : FlowState) : (_schema4 R s).contact_type = s.contact_type := by
  simp only [_schema4]; repeat' split
  all_goals rfl

lemma _schema5_ct (R : RealFns) (s : FlowState) : (_schema5 R s).contact_type = s.contact_type := by
  simp only [_schema5]; repeat' split
  all_goals rfl

lemma schema_dispatch_ct (R : RealFns) (s : FlowState) :
    (schema_dispatch R s).contact_type = s.contact_type := by
  simp only [schema_dispatch]
  repeat' split
  all_goals first
    | rw [_schema1_ct] | rw [_schema2_ct] | rw [_schema3_ct] | rw [_schema4_ct]
    | rw [_schema5_ct]

lemma _sigma_dd_ct (R : RealFns) (s s' : FlowState) (h : _sigma_dd R s = .ok s') :
    s'.contact_type = s.contact_type := by
  simp only [_sigma_dd] at h
  repeat' split at h
  all_goals cases h
  all_goals rfl

lemma _k_dd_ct (R : RealFns) (s : FlowState) : (_k_dd R s).contact_type = s.contact_type := by
  simp only [_k_dd]; repeat' split
  all_goals rfl

lemma _sigma_db_ct (R : RealFns) (s : FlowState) (cc : List Component) :
    (_sigma_db R s cc).contact_type = s.contact_type := by
  simp only [_sigma_db]; repeat' split
  all_goals rfl

lemma _k_db_ct (s : FlowState) (cc : List Component) :
    (_k_db s cc).contact_type = s.contact_type := by
  simp only [_k_db]; repeat' split
  all_goals rfl

lemma _sigma_cb_ct (s : FlowState) (cc hc : List Component) :
    (_sigma_cb s cc hc).contact_type = s.contact_type := by
  simp only [_sigma_cb]; repeat' split
  all_goals rfl

lemma _k_cb_ct (s : FlowState) (cc hc : List Component) :
    (_k_cb s cc hc).contact_type = s.contact_type := by
  simp only [_k_cb]; repeat' split
  all_goals rfl

lemma _sigma_cd_ct (R : RealFns) (s : FlowState) (hc : List Component) :
    (_sigma_cd R s hc).contact_type = s.contact_type := by
  simp only [_sigma_cd]; repeat' split
  all_goals rfl

lemma _k_cd_ct (s : FlowState) (hc : List Component) :
    (_k_cd s hc).contact_type = s.contact_type := by
  simp only [_k_cd]; repeat' split
  all_goals rfl


lemma full_setW_ct (s : FlowState) (cc hc : List Component) :
    (full_setW s cc hc).contact_type = s.contact_type := by
  simp only [full_setW]; repeat' split
  all_goals rfl

lemma full_setAB_ct (s : FlowState) : (full_setAB s).contact_type = s.contact_type := by
  simp only [full_setAB]; split
  all_goals rfl

lemma full_single_ct (R : RealFns) (s : FlowState) :
    (full_single R s).contact_type = s.contact_type := by
  simp only [full_single]; repeat' split
  all_goals exact schema_dispatch_ct R s

lemma full_multi_ct (R : RealFns) (s : FlowState) (cc hc : List Component) (s' : FlowState)
    (h : full_multi R s cc hc = .ok s') :
    s'.contact_type = some (_get_contact_type s cc hc) := by
  simp only [full_multi] at h
  repeat' split at h
  all_goals try cases h
  · rw [_k_dd_ct, _sigma_dd_ct R _ _ (by assumption)]
  · rw [_k_db_ct, _sigma_db_ct]
  · rw [_k_cb_ct, _sigma_cb_ct]
  · rw [_k_cd_ct, _sigma_cd_ct]
  · rfl

lemma full_ct (R : RealFns) (s : FlowState) (cc hc : List Component) (s' : FlowState)
    (h : full R s cc hc = .ok s') (h0 : s.contact_type = none) :
    s'.contact_type = none ∨ s'.contact_type = some "dd" ∨ s'.contact_type = some "db" ∨
      s'.contact_type = some "cb" ∨ s'.contact_type = some "cd" := by
  simp only [full] at h
  split at h
  · have hm := full_multi_ct R _ cc hc s' h
    rcases _get_contact_type_mem (full_setAB (full_setW s cc hc)) cc hc with h1 | h1 | h1 | h1 <;>
      rw [h1] at hm <;> tauto
  · cases h
    left
    rw [full_single_ct, full_setAB_ct, full_setW_ct]
    exact h0

lemma syncSigmaK_ksource (out : CalcOut) (fs : FlowState) :
    (syncSigmaK out fs).k_source = out.k_source ∨
    (syncSigmaK out fs).k_source = "schema/contact" := by
  simp only [syncSigmaK]; repeat' split
  all_goals simp

lemma meanDelta_ksource (q : ℚ) (out : CalcOut) (fs : FlowState) :
    (meanDeltaFallback q out fs).k_source = out.k_source ∨
    (meanDeltaFallback q out fs).k_source = "mean_delta" := by
  simp only [meanDeltaFallback]; repeat' split
  all_goals simp

lemma lmtd_ksource (R : RealFns) (q a b c d : ℚ) (out : CalcOut) (fs : FlowState) :
    (lmtdFallback R q a b c d out fs).k_source = out.k_source ∨
    (lmtdFallback R q a b c d out fs).k_source = "lmtd" := by
  simp only [lmtdFallback]; repeat' split
  all_goals simp

lemma syncContact_ct_of_none (out : CalcOut) (fs : FlowState) (h : fs.contact_type = none) :
    (syncContact out fs).contact_type = out.contact_type := by
  simp only [syncContact, h]

lemma syncContact_ct_of_some (out : CalcOut) (fs : FlowState) (ct : String)
    (h : fs.contact_type = some ct) (hne : ct ≠ "") :
    (syncContact out fs).contact_type = ct := by
  simp only [syncContact, h]
  rw [if_pos hne]

lemma postProcess_ksource (R : RealFns) (q a b c d : ℚ) (out0 : CalcOut) (fs : FlowState)
    (h : out0.k_source = "") :
    (postProcess R q a b c d out0 fs).k_source = "" ∨
    (postProcess R q a b c d out0 fs).k_source = "schema/contact" ∨
    (postProcess R q a b c d out0 fs).k_source = "mean_delta" ∨
    (postProcess R q a b c d out0 fs).k_source = "lmtd" := by
  have e1 : (syncQ out0 fs).k_source = "" := by
    rw [(syncQ_proj out0 fs).2.2.2.1]; exact h
  have e2 := syncSigmaK_ksource (syncQ out0 fs) fs
  have e3 := meanDelta_ksource q (syncSigmaK (syncQ out0 fs) fs) fs
  have e4 : (syncContact (meanDeltaFallback q (syncSigmaK (syncQ out0 fs) fs) fs) fs).k_source
      = (meanDeltaFallback q (syncSigmaK (syncQ out0 fs) fs) fs).k_source :=
    (syncContact_proj _ fs).2.2.2.2
  have e5 := lmtd_ksource R q a b c d
    (syncContact (meanDeltaFallback q (syncSigmaK (syncQ out0 fs) fs) fs) fs) fs
  simp only [postProcess]
  rcases e5 with e5 | e5
  · rw [e5, e4]
    rcases e3 with e3 | e3
    · rw [e3]
      rcases e2 with e2 | e2
      · rw [e2, e1]; left; rfl
      · rw [e2]; right; left; rfl
    · rw [e3]; right; right; left; rfl
  · rw [e5]; right; right; right; rfl

lemma postProcess_ct (R : RealFns) (q a b c d : ℚ) (out0 : CalcOut) (fs : FlowState)
    (h0 : out0.contact_type = "")
    (hfs : fs.contact_type = none ∨ fs.contact_type = some "dd" ∨ fs.contact_type = some "db" ∨
      fs.contact_type = some "cb" ∨ fs.contact_type = some "cd") :
    (postProcess R q a b c d out0 fs).contact_type = "" ∨
    (postProcess R q a b c d out0 fs).contact_type = "dd" ∨
    (postProcess R q a b c d out0 fs).contact_type = "db" ∨
    (postProcess R q a b c d out0 fs).contact_type = "cb" ∨
    (postProcess R q a b c d out0 fs).contact_type = "cd" := by
  simp only [postProcess]
  rw [(lmtd_proj R q a b c d _ fs).2.2.2]
  rcases hfs with h | h | h | h | h
  · left
    rw [syncContact_ct_of_none _ _ h, (meanDelta_proj q _ fs).2.2.2,
      (syncSigmaK_proj _ fs).2.2, (syncQ_proj out0 fs).2.2.2.2]
    exact h0
  · right; left; exact syncContact_ct_of_some _ _ _ h (by simp)
  · right; right; left; exact syncContact_ct_of_some _ _ _ h (by simp)
  · right; right; right; left; exact syncContact_ct_of_some _ _ _ h (by simp)
  · right; right; right; right; exact syncContact_ct_of_some _ _ _ h (by simp)

/-- Claim C2: `calculate` is total — the one escapable exception (the
unguarded logs of `_sigma_dd`) is caught by the outer `try`, in which case
every σ/K-related output keeps its default — and the tag fields only ever
hold their documented values. -/
theorem c2_never_raises (R : RealFns) (cold hot : PyDict) (cold_mix hot_mix : List PyDict)
    (q0 : ℚ) (schema : String) :
    ∃ o : CalcOut, calculate R cold hot cold_mix hot_mix q0 schema = o ∧
      (o.k_source = "" ∨ o.k_source = "schema/contact" ∨ o.k_source = "mean_delta" ∨
        o.k_source = "lmtd") ∧
      (o.contact_type = "" ∨ o.contact_type = "dd" ∨ o.contact_type = "db" ∨
        o.contact_type = "cb" ∨ o.contact_type = "cd") ∧
      ((o.sigma = 0 ∧ o.k = 0 ∧ o.k_source = "" ∧ o.contact_type = "") ∨
        ∃ fs2, full R
          { T_in_cold := readQ cold "t_in", T_out_cold := readQ cold "t_out",
            T_in_hot := readQ hot "t_in",
            T_out_hot := (step2t hot hot_mix (step1q cold hot cold_mix q0).1
              (step1q cold hot cold_mix q0).2).2,
            g_cold := readQ cold "m", g_hot := readQ hot "m",
            Q := (step1q cold hot cold_mix q0).2, schema := schema }
          (to_components cold_mix) (to_components hot_mix) = .ok fs2) := by
  cases hfull : full R
      { T_in_cold := readQ cold "t_in", T_out_cold := readQ cold "t_out",
        T_in_hot := readQ hot "t_in",
        T_out_hot := (step2t hot hot_mix (step1q cold hot cold_mix q0).1
          (step1q cold hot cold_mix q0).2).2,
        g_cold := readQ cold "m", g_hot := readQ hot "m",
        Q := (step1q cold hot cold_mix q0).2, schema := schema }
      (to_components cold_mix) (to_components hot_mix) with
  | error e =>
    have hc : calculate R cold hot cold_mix hot_mix q0 schema =
        (step2t hot hot_mix (step1q cold hot cold_mix q0).1
          (step1q cold hot cold_mix q0).2).1 := by
      simp only [calculate, hfull]
    refine ⟨_, hc, ?_, ?_, ?_⟩
    · rw [(step2t_fst_proj _ _ _ _).2.2.2.1, (step1q_fst_defaults _ _ _ _).2.2.2.1]
      left; rfl
    · rw [(step2t_fst_proj _ _ _ _).2.2.2.2, (step1q_fst_defaults _ _ _ _).2.2.2.2]
      left; rfl
    · left
      refine ⟨?_, ?_, ?_, ?_⟩
      · rw [(step2t_fst_proj _ _ _ _).2.1, (step1q_fst_defaults _ _ _ _).2.1]
      · rw [(step2t_fst_proj _ _ _ _).2.2.1, (step1q_fst_defaults _ _ _ _).2.2.1]
      · rw [(step2t_fst_proj _ _ _ _).2.2.2.1, (step1q_fst_defaults _ _ _ _).2.2.2.1]
      · rw [(step2t_fst_proj _ _ _ _).2.2.2.2, (step1q_fst_defaults _ _ _ _).2.2.2.2]
  | ok fs2 =>
    have hc : calculate R cold hot cold_mix hot_mix q0 schema =
        postProcess R (step1q cold hot cold_mix q0).2 (readQ cold "t_in") (readQ cold "t_out")
          (readQ hot "t_in")
          (step2t hot hot_mix (step1q cold hot cold_mix q0).1 (step1q cold hot cold_mix q0).2).2
          (step2t hot hot_mix (step1q cold hot cold_mix q0).1 (step1q cold hot cold_mix q0).2).1
          fs2 := by
      simp only [calculate, hfull]
    have hks : (step2t hot hot_mix (step1q cold hot cold_mix q0).1
        (step1q cold hot cold_mix q0).2).1.k_source = "" := by
      rw [(step2t_fst_proj _ _ _ _).2.2.2.1, (step1q_fst_defaults _ _ _ _).2.2.2.1]
    have hct0 : (step2t hot hot_mix (step1q cold hot cold_mix q0).1
        (step1q cold hot cold_mix q0).2).1.contact_type = "" := by
      rw [(step2t_fst_proj _ _ _ _).2.2.2.2, (step1q_fst_defaults _ _ _ _).2.2.2.2]
    refine ⟨_, hc, ?_, ?_, ?_⟩
    · exact postProcess_ksource _ _ _ _ _ _ _ _ hks
    · exact postProcess_ct _ _ _ _ _ _ _ _ hct0 (full_ct R _ _ _ fs2 hfull rfl)
    · right; exact ⟨fs2, rfl⟩

/-! ### Q is never rewritten by the solvers once it is non-zero -/

lemma full_setW_Q (s : FlowState) (cc hc : List Component) : (full_setW s cc hc).Q = s.Q := by
  simp only [full_setW]; repeat' split
  all_goals rfl

lemma full_setAB_Q (s : FlowState) : (full_setAB s).Q = s.Q := by
  simp only [full_setAB]; split
  all_goals rfl

lemma _schema1_Q (s : FlowState) (h : s.Q ≠ 0) : (_schema1 s).Q = s.Q := by
  simp only [_schema1]; repeat' split
  all_goals first | rfl | simp_all

lemma _schema2_Q (R : RealFns) (s : FlowState) (h : s.Q ≠ 0) : (_schema2 R s).Q = s.Q := by
  simp only [_schema2]; repeat' split
  all_goals first | rfl | simp_all

lemma _schema3_Q (R : RealFns) (s : FlowState) (h : s.Q ≠ 0) : (_schema3 R s).Q = s.Q := by
  simp only [_schema3]; repeat' split
  all_goals first | rfl | simp_all

lemma _schema4_Q (R : RealFns) (s : FlowState) (h : s.Q ≠ 0) : (_schema4 R s).Q = s.Q := by
  simp only [_schema4]; repeat' split
  all_goals first | rfl | simp_all

lemma _schema5_Q (R : RealFns) (s : FlowState) (h : s.Q ≠ 0) : (_schema5 R s).Q = s.Q := by
  simp only [_schema5]; repeat' split
  all_goals first | rfl | simp_all

lemma schema_dispatch_Q (R : RealFns) (s : FlowState) (h : s.Q ≠ 0) :
    (schema_dispatch R s).Q = s.Q := by
  simp only [schema_dispatch]
  repeat' split
  all_goals first
    | exact _schema1_Q s h | exact _schema2_Q R s h | exact _schema3_Q R s h
    | exact _schema4_Q R s h | exact _schema5_Q R s h

lemma full_single_Q (R : RealFns) (s : FlowState) (h : s.Q ≠ 0) :
    (full_single R s).Q = s.Q := by
  simp only [full_single]; repeat' split
  all_goals exact schema_dispatch_Q R s h

/-- Step 1 of `calculate` with a non-zero hint: nothing happens. -/
lemma step1q_skip (cold hot : PyDict) (cm : List PyDict) (q0 : ℚ) (hq : q0 ≠ 0) :
    step1q cold hot cm q0 = ({}, q0) := by
  simp only [step1q]
  rw [if_neg]
  intro hcon
  exact hq hcon.1

lemma postProcess_q_of_Q (R : RealFns) (q a b c d : ℚ) (out0 : CalcOut) (fs : FlowState)
    (hQ : fs.Q ≠ 0) (h : out0.q = none) :
    (postProcess R q a b c d out0 fs).q = some (pyRound fs.Q 6) := by
  simp only [postProcess]
  rw [(lmtd_proj R q a b c d _ fs).1, (syncContact_proj _ fs).1, (meanDelta_proj q _ fs).1,
    (syncSigmaK_proj _ fs).1, syncQ_q_of_Q out0 fs hQ h]

lemma calculate_eq_of_ok (R : RealFns) (cold hot : PyDict) (cm hm : List PyDict)
    (q0 : ℚ) (sch : String) (fs2 : FlowState)
    (h : full R
      { T_in_cold := readQ cold "t_in", T_out_cold := readQ cold "t_out",
        T_in_hot := readQ hot "t_in",
        T_out_hot := (step2t hot hm (step1q cold hot cm q0).1 (step1q cold hot cm q0).2).2,
        g_cold := readQ cold "m", g_hot := readQ hot "m",
        Q := (step1q cold hot cm q0).2, schema := sch }
      (to_components cm) (to_components hm) = .ok fs2) :
    calculate R cold hot cm hm q0 sch =
      postProcess R (step1q cold hot cm q0).2 (readQ cold "t_in") (readQ cold "t_out")
        (readQ hot "t_in")
        (step2t hot hm (step1q cold hot cm q0).1 (step1q cold hot cm q0).2).2
        (step2t hot hm (step1q cold hot cm q0).1 (step1q cold hot cm q0).2).1 fs2 := by
  simp only [calculate, h]

/-- Claim C3 counterexample: the caller supplies the non-zero hint q = 5,
yet the returned dict DOES contain the key `q` (line 180 syncs `fs.Q`,
which still holds the caller's hint, into the output). -/
theorem c3_counterexample :
    (5 : ℚ) ≠ 0 ∧ (calculate logZero [] [] [] [] 5 "Schema1").q = some 5 := by
  constructor
  · norm_num
  · norm_num +decide [calculate, step1q, step2t, postProcess, syncQ, syncSigmaK,
      meanDeltaFallback, syncContact, lmtdFallback, full, full_setW, full_setAB, full_single,
      full_multi, schema_dispatch, _schema1, _schema2, _schema3, _schema4, _schema5,
      _sigma_dd, _k_dd, _sigma_db, _k_db, _sigma_cb, _k_cb, _sigma_cd, _k_cd,
      _get_contact_type, _capacity_from_components, weighted_Cf, to_components, readQ,
      dictGet0, _to_float, plog, pyRound, logZero, round_eq]

/-- Claim C3 amended: when the caller supplies a non-zero q, the output
still contains the key `q`, equal to `round(q, 6)` — at least whenever both
mixtures have at most one component, so that the solver block cannot raise
and skip the sync.  The `q` key is therefore NOT present only when the
engine computed it. -/
theorem c3_amended (R : RealFns) (cold hot : PyDict) (cold_mix hot_mix : List PyDict)
    (q0 : ℚ) (schema : String) (hq : q0 ≠ 0)
    (hcm : cold_mix.length ≤ 1) (hhm : hot_mix.length ≤ 1) :
    (calculate R cold hot cold_mix hot_mix q0 schema).q = some (pyRound q0 6) := by
  have hs1 : step1q cold hot cold_mix q0 = ({}, q0) := step1q_skip cold hot cold_mix q0 hq
  have hlen : ¬((to_components cold_mix).length > 1 ∨ (to_components hot_mix).length > 1) := by
    simp only [to_components, List.length_map]
    omega
  have hfull : full R
      { T_in_cold := readQ cold "t_in", T_out_cold := readQ cold "t_out",
        T_in_hot := readQ hot "t_in",
        T_out_hot := (step2t hot hot_mix (step1q cold hot cold_mix q0).1
          (step1q cold hot cold_mix q0).2).2,
        g_cold := readQ cold "m", g_hot := readQ hot "m",
        Q := (step1q cold hot cold_mix q0).2, schema := schema }
      (to_components cold_mix) (to_components hot_mix) =
      .ok (full_single R (full_setAB (full_setW
        { T_in_cold := readQ cold "t_in", T_out_cold := readQ cold "t_out",
          T_in_hot := readQ hot "t_in",
          T_out_hot := (step2t hot hot_mix (step1q cold hot cold_mix q0).1
            (step1q cold hot cold_mix q0).2).2,
          g_cold := readQ cold "m", g_hot := readQ hot "m",
          Q := (step1q cold hot cold_mix q0).2, schema := schema }
        (to_components cold_mix) (to_components hot_mix)))) := by
    simp only [full]
    rw [if_neg hlen]
  rw [calculate_eq_of_ok R cold hot cold_mix hot_mix q0 schema _ hfull]
  have hQst : ((⟨readQ cold "t_in", readQ cold "t_out", readQ hot "t_in",
      (step2t hot hot_mix (step1q cold hot cold_mix q0).1 (step1q cold hot cold_mix q0).2).2,
      readQ cold "m", readQ hot "m", (step1q cold hot cold_mix q0).2, 0, 0, 0, 0, 0, 0, 0,
      0, 0, schema, none⟩ : FlowState)).Q = q0 := by
    show (step1q cold hot cold_mix q0).2 = q0
    rw [hs1]
  have hQ2 : (full_single R (full_setAB (full_setW
      { T_in_cold := readQ cold "t_in", T_out_cold := readQ cold "t_out",
        T_in_hot := readQ hot "t_in",
        T_out_hot := (step2t hot hot_mix (step1q cold hot cold_mix q0).1
          (step1q cold hot cold_mix q0).2).2,
        g_cold := readQ cold "m", g_hot := readQ hot "m",
        Q := (step1q cold hot cold_mix q0).2, schema := schema }
      (to_components cold_mix) (to_components hot_mix)))).Q = q0 := by
    rw [full_single_Q, full_setAB_Q, full_setW_Q]
    · exact hQst
    · rw [full_setAB_Q, full_setW_Q]
      rw [hQst]
      exact hq
  have hnone : (step2t hot hot_mix (step1q cold hot cold_mix q0).1
      (step1q cold hot cold_mix q0).2).1.q = none := by
    rw [(step2t_fst_proj _ _ _ _).1, hs1]
  rw [postProcess_q_of_Q _ _ _ _ _ _ _ _ (by rw [hQ2]; exact hq) hnone, hQ2]

theorem c3_amended_witness :
    ((5 : ℚ) ≠ 0 ∧ ([] : List PyDict).length ≤ 1) ∧
    (calculate logZero [] [] [] [] 5 "Schema1").q = some (pyRound 5 6) := by
  refine ⟨⟨by norm_num, by simp⟩, ?_⟩
  rw [c3_amended logZero [] [] [] [] 5 "Schema1" (by norm_num) (by simp) (by simp)]

/-! ### Claim C4: the Q / hot-outlet round trip -/

lemma pyRound_close (x : ℚ) (n : ℕ) : |pyRound x n - x| ≤ 1 / 2 / 10 ^ n := by
  have hp : (0 : ℚ) < 10 ^ n := by positivity
  have h : pyRound x n - x = ((round (x * 10 ^ n) : ℚ) - x * 10 ^ n) / 10 ^ n := by
    rw [pyRound, sub_div]
    congr 1
    exact (mul_div_cancel_right₀ x hp.ne').symm
  rw [h, abs_div, abs_of_pos hp]
  gcongr
  rw [abs_sub_comm]
  exact abs_sub_round _

/-- Step 2 of `calculate` in the round-trip situation: non-zero q, absent
hot outlet, known hot inlet, positive hot flow and capacity. -/
lemma step2t_fires (hot : PyDict) (hm : List PyDict) (o : CalcOut) (q : ℚ)
    (hq : q ≠ 0) (ht : readQ hot "t_out" = 0) (hti : readQ hot "t_in" ≠ 0)
    (hg : readQ hot "m" > 0) (hCf : weighted_Cf hm (readQ hot "t_in") > 0) :
    step2t hot hm o q =
      ({ o with t_out_plus := some (pyRound (readQ hot "t_in" -
          q / (readQ hot "m" * weighted_Cf hm (readQ hot "t_in"))) 6) },
        readQ hot "t_in" - q / (readQ hot "m" * weighted_Cf hm (readQ hot "t_in"))) := by
  simp only [step2t]
  repeat' split
  all_goals simp_all [mul_pos hg hCf]

lemma readQ_cons_hit (d : PyDict) (k : String) (v : PyVal) :
    readQ ((k, v) :: d) k = _to_float v := by
  simp [readQ, dictGet0]

lemma readQ_cons_miss (d : PyDict) (k k' : String) (v : PyVal) (h : (k' == k) = false) :
    readQ ((k', v) :: d) k = readQ d k := by
  simp [readQ, dictGet0, h]

/-- Example mixtures with unequal capacities: specific heat 1 on the cold
side, 2 on the hot side (single component, threshold 373 K). -/
def exMixC1 : List PyDict :=
  [[("share", .num 1), ("tb", .num 373), ("cf", .num 1), ("cp", .num 1)]]

def exMixH2 : List PyDict :=
  [[("share", .num 1), ("tb", .num 373), ("cf", .num 2), ("cp", .num 2)]]

/-- The hot stream of the example with its outlet temperature absent. -/
def exHotNoTout : PyDict := [("t_in", .num 350), ("m", .num 1)]

/-- Claim C4 counterexample: with W_cold = 1 and W_hot = 2 (both positive,
single-component), the first call infers Q = (350-330)*1 = 20, and feeding
Q = 20 back with the hot outlet removed returns t_out_plus =
350 - 20/2 = 340, which is 10 K away from the original 330 — far outside
6-decimal rounding tolerance.  The round trip only closes when
W_cold = W_hot. -/
theorem c4_counterexample :
    (calculate logZero exCold exHot exMixC1 exMixH2 0 "Schema1").q = some 20 ∧
    (calculate logZero exCold exHotNoTout exMixC1 exMixH2 20 "Schema1").t_out_plus = some 340 ∧
    ¬(|(340 : ℚ) - 330| ≤ 1 / 1000000) := by
  refine ⟨?_, ?_, by norm_num⟩ <;>
    norm_num +decide [calculate, step1q, step2t, postProcess, syncQ, syncSigmaK,
      meanDeltaFallback, syncContact, lmtdFallback, full, full_setW, full_setAB, full_single,
      full_multi, schema_dispatch, _schema1, _schema2, _schema3, _schema4, _schema5,
      _sigma_dd, _k_dd, _sigma_db, _k_db, _sigma_cb, _k_cb, _sigma_cd, _k_cd,
      _get_contact_type, _capacity_from_components, weighted_Cf, to_components, readQ,
      dictGet0, _to_float, plog, pyRound, logZero, round_eq, exCold, exHot, exHotNoTout,
      exMixC1, exMixH2]

/-- Claim C4 amended: the round trip holds once the two capacity rates are
EQUAL (the code divides the fed-back Q by W_hot although it was built from
W_cold).  Then t_out_plus returns to the original hot outlet up to the two
6-decimal roundings: |t_out_plus - T_out_hot| ≤ (1/2)*10^-6 * (1 + 1/W). -/
theorem c4_amended (R : RealFns) (cold hot : PyDict) (cold_mix hot_mix : List PyDict)
    (schema : String)
    (h1 : readQ cold "t_in" ≠ 0) (h2 : readQ cold "t_out" ≠ 0)
    (h3 : readQ hot "t_in" ≠ 0) (h4 : readQ hot "t_out" ≠ 0)
    (h5 : readQ cold "m" > 0) (h6 : readQ hot "m" > 0)
    (hCfc : weighted_Cf cold_mix (readQ cold "t_in") > 0)
    (hCfh : weighted_Cf hot_mix (readQ hot "t_in") > 0)
    (hW : readQ cold "m" * weighted_Cf cold_mix (readQ cold "t_in")
        = readQ hot "m" * weighted_Cf hot_mix (readQ hot "t_in"))
    (hqne : pyRound ((readQ hot "t_in" - readQ hot "t_out") *
        (readQ cold "m" * weighted_Cf cold_mix (readQ cold "t_in"))) 6 ≠ 0) :
    (calculate R cold hot cold_mix hot_mix 0 schema).q =
      some (pyRound ((readQ hot "t_in" - readQ hot "t_out") *
        (readQ cold "m" * weighted_Cf cold_mix (readQ cold "t_in"))) 6) ∧
    ∃ T, (calculate R cold (("t_out", PyVal.num 0) :: hot) cold_mix hot_mix
        (pyRound ((readQ hot "t_in" - readQ hot "t_out") *
          (readQ cold "m" * weighted_Cf cold_mix (readQ cold "t_in"))) 6) schema).t_out_plus
        = some T ∧
      |T - readQ hot "t_out"| ≤ 1 / 2 / 10 ^ 6 *
        (1 + 1 / (readQ cold "m" * weighted_Cf cold_mix (readQ cold "t_in"))) := by
  have hWpos : 0 < readQ cold "m" * weighted_Cf cold_mix (readQ cold "t_in") :=
    mul_pos h5 hCfc
  constructor
  · exact calculate_q_some R cold hot cold_mix hot_mix 0 schema _
      (by rw [step1q_fires cold hot cold_mix h1 h2 h3 h4 h5 hCfc])
  · -- the second call, against hot with "t_out" shadowed by 0
    have hti' : readQ (("t_out", PyVal.num 0) :: hot) "t_in" = readQ hot "t_in" :=
      readQ_cons_miss hot "t_in" "t_out" (PyVal.num 0) rfl
    have hto' : readQ (("t_out", PyVal.num 0) :: hot) "t_out" = 0 :=
      readQ_cons_hit hot "t_out" (PyVal.num 0)
    have hg' : readQ (("t_out", PyVal.num 0) :: hot) "m" = readQ hot "m" :=
      readQ_cons_miss hot "m" "t_out" (PyVal.num 0) rfl
    refine ⟨pyRound (readQ hot "t_in" -
        pyRound ((readQ hot "t_in" - readQ hot "t_out") *
          (readQ cold "m" * weighted_Cf cold_mix (readQ cold "t_in"))) 6 /
        (readQ cold "m" * weighted_Cf cold_mix (readQ cold "t_in"))) 6, ?_, ?_⟩
    · rw [calculate_tplus, step1q_skip _ _ _ _ hqne]
      rw [step2t_fires (("t_out", PyVal.num 0) :: hot) hot_mix {} _ hqne hto'
        (by rw [hti']; exact h3) (by rw [hg']; exact h6) (by rw [hti']; exact hCfh)]
      rw [hti', hg', ← hW]
    · -- the rounding bound
      set W := readQ cold "m" * weighted_Cf cold_mix (readQ cold "t_in") with hWdef
      set tih := readQ hot "t_in"
      set toh := readQ hot "t_out"
      set qs := pyRound ((tih - toh) * W) 6 with hqs
      have e1 : |qs - (tih - toh) * W| ≤ 1 / 2 / 10 ^ 6 := pyRound_close _ 6
      have e2 : |pyRound (tih - qs / W) 6 - (tih - qs / W)| ≤ 1 / 2 / 10 ^ 6 :=
        pyRound_close _ 6
      have hz : (tih - qs / W) - toh = ((tih - toh) * W - qs) / W := by
        field_simp
        ring
      have hsplit : pyRound (tih - qs / W) 6 - toh =
          (pyRound (tih - qs / W) 6 - (tih - qs / W)) + ((tih - qs / W) - toh) := by
        ring
      calc |pyRound (tih - qs / W) 6 - toh|
          ≤ |pyRound (tih - qs / W) 6 - (tih - qs / W)| + |(tih - qs / W) - toh| := by
            rw [hsplit]; exact abs_add _ _
        _ = |pyRound (tih - qs / W) 6 - (tih - qs / W)| + |((tih - toh) * W - qs) / W| := by
            rw [hz]
        _ = |pyRound (tih - qs / W) 6 - (tih - qs / W)| + |(tih - toh) * W - qs| / W := by
            rw [abs_div, abs_of_pos hWpos]
        _ ≤ 1 / 2 / 10 ^ 6 + (1 / 2 / 10 ^ 6) / W := by
            gcongr
            rw [abs_sub_comm]
            exact e1
        _ = 1 / 2 / 10 ^ 6 * (1 + 1 / W) := by
            field_simp

theorem c4_amended_witness :
    pyRound ((readQ exHot "t_in" - readQ exHot "t_out") *
      (readQ exCold "m" * weighted_Cf exMix (readQ exCold "t_in"))) 6 ≠ 0 ∧
    (calculate logZero exCold exHot exMix exMix 0 "Schema1").q = some 84 ∧
    ∃ T, (calculate logZero exCold (("t_out", PyVal.num 0) :: exHot) exMix exMix
        84 "Schema1").t_out_plus = some T ∧
      |T - readQ exHot "t_out"| ≤ 1 / 2 / 10 ^ 6 *
        (1 + 1 / (readQ exCold "m" * weighted_Cf exMix (readQ exCold "t_in"))) := by
  have harg : pyRound ((readQ exHot "t_in" - readQ exHot "t_out") *
      (readQ exCold "m" * weighted_Cf exMix (readQ exCold "t_in"))) 6 = 84 := by
    norm_num +decide [readQ, dictGet0, _to_float, weighted_Cf, pyRound, round_eq, exCold,
      exHot, exMix]
  have h := c4_amended logZero exCold exHot exMix exMix "Schema1"
    (by norm_num +decide [readQ, dictGet0, _to_float, exCold])
    (by norm_num +decide [readQ, dictGet0, _to_float, exCold])
    (by norm_num +decide [readQ, dictGet0, _to_float, exHot])
    (by norm_num +decide [readQ, dictGet0, _to_float, exHot])
    (by norm_num +decide [readQ, dictGet0, _to_float, exCold])
    (by norm_num +decide [readQ, dictGet0, _to_float, exHot])
    (by norm_num +decide [readQ, dictGet0, _to_float, weighted_Cf, exCold, exMix])
    (by norm_num +decide [readQ, dictGet0, _to_float, weighted_Cf, exHot, exMix])
    (by norm_num +decide [readQ, dictGet0, _to_float, weighted_Cf, exCold, exHot, exMix])
    (by rw [harg]; norm_num)
  rw [harg] at h
  exact ⟨by rw [harg]; norm_num, h⟩

/-! ### Claim C5: the Schema5 equal-capacity special case is dead code -/

/-- Single component, share 1, specific heat 4.2 below the 373 K threshold. -/
def exComp42 : Component := { Share := 1, T_b := 373, C_f := 21 / 5, C_p := 21 / 5, r_f := 0 }

/-- A fully-specified Schema5 state with Q = 84 known and K unset, whose two
capacity rates come out equal (4.2 kW/K each). -/
def exSchema5State : FlowState :=
  { T_in_cold := 290, T_out_cold := 300, T_in_hot := 350, T_out_hot := 330,
    g_cold := 1, g_hot := 1, Q := 84, schema := "Schema5" }

/-- Claim C5 is the spec's special case `K = Q/(T_in_hot - T_in_cold - Q/W)`
for `W_cold == W_hot`; on this state it would give K = 84/(350-290-20) = 2.1.
The code instead leaves K = 0: `_schema5`'s whole body, special case
included, is guarded by `if state.A:`, and `full` computes
`A = (W_cold - W_hot)/(W_hot*W_cold) = 0` exactly when the capacities are
equal — the branch at lines 575-579 can never run.  (This holds for every
choice of the transcendental functions.) -/
theorem c5_schema5_dead_special_case (R : RealFns) :
    (full R exSchema5State [exComp42] [exComp42]).map FlowState.K = .ok 0 ∧
    (84 : ℚ) / (350 - 290 - 84 / (21 / 5)) = 21 / 10 ∧ (21 / 10 : ℚ) ≠ 0 := by
  refine ⟨?_, by norm_num, by norm_num⟩
  norm_num +decide [full, full_setW, full_setAB, full_single, full_multi, schema_dispatch,
    _schema1, _schema2, _schema3, _schema4, _schema5, _capacity_from_components, plog,
    exSchema5State, exComp42, Except.map]

/-! ### Claim C6: the "mean_delta" fallback and missing outlet temperatures -/

/-- A multi-component cold mixture (one boiling component at 295 K with
latent heat 100, one inert), and a hot stream with zero flow and an ABSENT
outlet temperature. -/
def exMixBoil : List PyDict :=
  [[("share", .num (1 / 2)), ("tb", .num 295), ("cf", .num 1), ("cp", .num 1),
    ("rf", .num 100)],
   [("share", .num (1 / 2)), ("tb", .num 500), ("cf", .num 1), ("cp", .num 1),
    ("rf", .num 0)]]

def exMixCond : List PyDict :=
  [[("share", .num 1), ("tb", .num 295), ("cf", .num 1), ("cp", .num 1), ("rf", .num 10)]]

def exHotNoOut : PyDict := [("t_in", .num 350), ("m", .num 0)]

/-- Claim C6 counterexample: σ is computed (latent terms of the "cb"
regime), K stays 0, Q = 50 is known, the hot outlet is absent.  Per the
claim the hot mean falls back to the inlet alone, giving
K = round(50/(350-295), 6) ≠ 0 with source "mean_delta"; the code instead
leaves Th_mean = None and skips the fallback entirely: k = 0, k_source "". -/
theorem c6_counterexample :
    (calculate logZero exCold exHotNoOut exMixBoil exMixCond 50 "Schema1").k = 0 ∧
    (calculate logZero exCold exHotNoOut exMixBoil exMixCond 50 "Schema1").k_source = "" ∧
    (calculate logZero exCold exHotNoOut exMixBoil exMixCond 50 "Schema1").sigma ≠ 0 ∧
    pyRound (50 / (350 - (290 + 300) / 2)) 6 ≠ 0 := by
  refine ⟨?_, ?_, ?_, by norm_num [pyRound, round_eq]⟩ <;>
    norm_num +decide [calculate, step1q, step2t, postProcess, syncQ, syncSigmaK,
      meanDeltaFallback, syncContact, lmtdFallback, full, full_setW, full_setAB, full_single,
      full_multi, schema_dispatch, _schema1, _schema2, _schema3, _schema4, _schema5,
      _sigma_dd, _k_dd, _sigma_db, _k_db, _sigma_cb, _k_cb, _sigma_cd, _k_cd,
      _get_contact_type, _capacity_from_components, weighted_Cf, to_components, readQ,
      dictGet0, _to_float, plog, pyRound, logZero, round_eq, exCold, exHotNoOut, exMixBoil,
      exMixCond]

/-- Cold stream 300→280 K and hot stream 350→280 K (equal outlets disable
the Schema1 formula, the negative cold span disables the LMTD fallback),
flows 1 kg/s. -/
def exColdC6 : PyDict := [("t_in", .num 300), ("t_out", .num 280), ("m", .num 1)]

def exHotC6 : PyDict := [("t_in", .num 350), ("t_out", .num 280), ("m", .num 1)]

def exMixC6 : List PyDict :=
  [[("share", .num 1), ("tb", .num 400), ("cf", .num (21 / 5)), ("cp", .num (21 / 5))]]

/-- The constant-one stand-in for `math.log`, making σ non-zero in runs
where only that matters. -/
def logOne : RealFns := ⟨fun _ => 1, fun _ => 0⟩

/-! ### Claim C7: empty component lists -/

lemma _schema1_noop (s : FlowState) (hQ : s.Q = 0) (hK : s.K = 0) : _schema1 s = s := by
  simp only [_schema1]; repeat' split
  all_goals simp_all

lemma _schema2_noop (R : RealFns) (s : FlowState) (hB : s.B = 0) : _schema2 R s = s := by
  simp only [_schema2]
  rw [if_neg]
  simp [hB]

lemma _schema3_noop (R : RealFns) (s : FlowState) (hW : s.W_hot = 0) : _schema3 R s = s := by
  simp only [_schema3]
  rw [if_neg]
  simp [hW]

lemma _schema4_noop (R : RealFns) (s : FlowState) (hW : s.W_cold = 0) : _schema4 R s = s := by
  simp only [_schema4]
  rw [if_neg]
  simp [hW]

lemma _schema5_noop (R : RealFns) (s : FlowState) (hA : s.A = 0) : _schema5 R s = s := by
  simp only [_schema5]
  rw [if_neg]
  simp [hA]

lemma schema_dispatch_noop (R : RealFns) (s : FlowState) (hQ : s.Q = 0) (hK : s.K = 0)
    (hB : s.B = 0) (hWh : s.W_hot = 0) (hWc : s.W_cold = 0) (hA : s.A = 0) :
    schema_dispatch R s = s := by
  simp only [schema_dispatch]
  repeat' split
  all_goals first
    | exact _schema1_noop s hQ hK | exact _schema2_noop R s hB | exact _schema3_noop R s hWh
    | exact _schema4_noop R s hWc | exact _schema5_noop R s hA

/-- With empty component lists `full` changes nothing: the capacities stay
0, A/B stay 0, any schema is a no-op, and the σ recomputation is skipped. -/
lemma full_empty (R : RealFns) (s : FlowState) (hQ : s.Q = 0) (hK : s.K = 0)
    (hB : s.B = 0) (hWh : s.W_hot = 0) (hWc : s.W_cold = 0) (hA : s.A = 0) :
    full R s [] [] = .ok s := by
  have h1 : full_setW s [] [] = s := by simp [full_setW]
  have h2 : full_setAB s = s := by
    simp only [full_setAB]
    rw [if_neg]
    simp [hWc]
  have h3 : full_single R s = s := by
    simp only [full_single, schema_dispatch_noop R s hQ hK hB hWh hWc hA]
    rw [if_neg]
    simp [hWh]
  simp [full, h1, h2, h3]

lemma postProcess_defaults (R : RealFns) (q a b c d : ℚ) (out0 : CalcOut) (fs : FlowState)
    (hq : q = 0) (hQ : fs.Q = 0) (hS : fs.Sigma = 0) (hK : fs.K = 0)
    (hct : fs.contact_type = none) :
    postProcess R q a b c d out0 fs = out0 := by
  simp [postProcess, syncQ, syncSigmaK, meanDeltaFallback, syncContact, lmtdFallback,
    hq, hQ, hS, hK, hct]

lemma step1q_empty (cold hot : PyDict) : step1q cold hot [] 0 = ({}, 0) := by
  simp only [step1q]
  split
  · rw [if_neg]
    norm_num [weighted_Cf]
  · rfl

lemma step2t_skip (hot : PyDict) (hm : List PyDict) (o : CalcOut) (q : ℚ) (hq : q = 0) :
    step2t hot hm o q = (o, readQ hot "t_out") := by
  simp only [step2t]
  rw [if_neg]
  intro hc
  exact hc.1 hq

/-- Claim C7 counterexample: empty mixtures but a non-zero hint q = 5 and
truthy outlet temperatures — Schema1 computes K = round(5/(300-200), 5)
= 0.05 ≠ 0, so "Q/K/σ all stay at their defaults" fails for "any q hint". -/
theorem c7_counterexample :
    (calculate logZero [("t_out", .num 200)] [("t_out", .num 300)] [] [] 5 "Schema1").k
      = 1 / 20 ∧ ((1 : ℚ) / 20) ≠ 0 := by
  refine ⟨?_, by norm_num⟩
  norm_num +decide [calculate, step1q, step2t, postProcess, syncQ, syncSigmaK,
    meanDeltaFallback, syncContact, lmtdFallback, full, full_setW, full_setAB, full_single,
    full_multi, schema_dispatch, _schema1, _schema2, _schema3, _schema4, _schema5,
    _sigma_dd, _k_dd, _sigma_db, _k_db, _sigma_cb, _k_cb, _sigma_cd, _k_cd,
    _get_contact_type, _capacity_from_components, weighted_Cf, to_components, readQ,
    dictGet0, _to_float, plog, pyRound, logZero, round_eq]

/-- Claim C7 amended: with empty component lists AND a zero q hint, nothing
raises, both capacity rates are 0 (`weighted_Cf [] t = 0`), and the output
is exactly the default record: no q, no t_out_plus, σ = 0, K = 0, empty
tags — for arbitrary stream dicts and any schema string. -/
theorem c7_amended (R : RealFns) (cold hot : PyDict) (schema : String) :
    calculate R cold hot [] [] 0 schema = {} ∧ ∀ t : ℚ, weighted_Cf [] t = 0 := by
  refine ⟨?_, fun t => rfl⟩
  have hs1 : step1q cold hot [] 0 = ({}, 0) := step1q_empty cold hot
  have hfull := full_empty R
    { T_in_cold := readQ cold "t_in", T_out_cold := readQ cold "t_out",
      T_in_hot := readQ hot "t_in",
      T_out_hot := (step2t hot [] (step1q cold hot [] 0).1 (step1q cold hot [] 0).2).2,
      g_cold := readQ cold "m", g_hot := readQ hot "m",
      Q := (step1q cold hot [] 0).2, schema := schema }
    (by show (step1q cold hot [] 0).2 = 0; rw [hs1]) rfl rfl rfl rfl rfl
  rw [calculate_eq_of_ok R cold hot [] [] 0 schema _ hfull]
  rw [postProcess_defaults _ _ _ _ _ _ _ _
    (by rw [hs1]) (by show (step1q cold hot [] 0).2 = 0; rw [hs1]) rfl rfl rfl]
  rw [hs1]
  rw [step2t_skip hot [] {} 0 rfl]

/-! ### Claim C8: contact-type classification -/

/-- Claim C8: the classification uses strict inequalities on both sides —
`cold_boiling` iff some cold threshold lies strictly between the cold inlet
and outlet, `hot_condensing` iff some hot threshold lies strictly between
the hot outlet and inlet — with dd/db/cb/cd exactly the four boolean
combinations; in particular a cold component whose threshold equals the
cold inlet never counts as boiling. -/
theorem c8_contact_classification :
    (∀ (s : FlowState) (cold hot : List Component),
      ((_get_contact_type s cold hot = "dd") ↔
        ¬(∃ c ∈ cold, s.T_in_cold < c.T_b ∧ s.T_out_cold > c.T_b) ∧
        ¬(∃ c ∈ hot, s.T_in_hot > c.T_b ∧ s.T_out_hot < c.T_b)) ∧
      ((_get_contact_type s cold hot = "db") ↔
        (∃ c ∈ cold, s.T_in_cold < c.T_b ∧ s.T_out_cold > c.T_b) ∧
        ¬(∃ c ∈ hot, s.T_in_hot > c.T_b ∧ s.T_out_hot < c.T_b)) ∧
      ((_get_contact_type s cold hot = "cb") ↔
        (∃ c ∈ cold, s.T_in_cold < c.T_b ∧ s.T_out_cold > c.T_b) ∧
        (∃ c ∈ hot, s.T_in_hot > c.T_b ∧ s.T_out_hot < c.T_b)) ∧
      ((_get_contact_type s cold hot = "cd") ↔
        ¬(∃ c ∈ cold, s.T_in_cold < c.T_b ∧ s.T_out_cold > c.T_b) ∧
        (∃ c ∈ hot, s.T_in_hot > c.T_b ∧ s.T_out_hot < c.T_b))) ∧
    (∀ (s : FlowState) (cf cp rf : ℚ) (hot : List Component),
      _get_contact_type s [{ Share := 1, T_b := s.T_in_cold, C_f := cf, C_p := cp, r_f := rf }]
        hot ≠ "db" ∧
      _get_contact_type s [{ Share := 1, T_b := s.T_in_cold, C_f := cf, C_p := cp, r_f := rf }]
        hot ≠ "cb") := by
  constructor
  · intro s cold hot
    cases hcb : cold.any (fun c =>
        decide (s.T_in_cold < c.T_b) && decide (s.T_out_cold > c.T_b)) <;>
      cases hhc : hot.any (fun c =>
        decide (s.T_in_hot > c.T_b) && decide (s.T_out_hot < c.T_b)) <;>
      refine ⟨?_, ?_, ?_, ?_⟩ <;>
      simp only [_get_contact_type, hcb, hhc] <;>
      simp_all [List.any_eq_true]
  · intro s cf cp rf hot
    cases hhc : hot.any (fun c =>
        decide (s.T_in_hot > c.T_b) && decide (s.T_out_hot < c.T_b)) <;>
      simp [_get_contact_type, hhc]

/-! ### Claim C10: malformed values are coerced to 0 and act as absent -/

/-- Replace a value by the float `_to_float` turns it into. -/
def sanitizeVal (v : PyVal) : PyVal := .num (_to_float v)

def sanitizeD (d : PyDict) : PyDict := d.map (fun p => (p.1, sanitizeVal p.2))

lemma readQ_sanitize (d : PyDict) (k : String) : readQ (sanitizeD d) k = readQ d k := by
  induction d with
  | nil => rfl
  | cons p rest ih =>
    simp only [sanitizeD, List.map_cons] at ih ⊢
    simp only [readQ, dictGet0] at ih ⊢
    split
    · rfl
    · exact ih

lemma weighted_Cf_sanitize (mix : List PyDict) (t : ℚ) :
    weighted_Cf (mix.map sanitizeD) t = weighted_Cf mix t := by
  simp only [weighted_Cf]
  have key : ∀ (l : List PyDict) (a : ℚ),
      (l.map sanitizeD).foldl (fun s comp =>
        s + readQ comp "share" *
          (if t < readQ comp "tb" then readQ comp "cf" else readQ comp "cp")) a =
      l.foldl (fun s comp =>
        s + readQ comp "share" *
          (if t < readQ comp "tb" then readQ comp "cf" else readQ comp "cp")) a := by
    intro l
    induction l with
    | nil => intro a; rfl
    | cons comp rest ih =>
      intro a
      simp only [List.map_cons, List.foldl_cons, readQ_sanitize]
      exact ih _
  exact key mix 0

lemma to_components_sanitize (mix : List PyDict) :
    to_components (mix.map sanitizeD) = to_components mix := by
  simp only [to_components, List.map_map]
  refine List.map_congr_left ?_
  intro item _
  simp [Function.comp, readQ_sanitize]

/-- Claim C10: `_to_float` turns every unconvertible value into 0.0, a
missing key also reads as 0.0, and replacing every stored value by its
coerced float changes nothing anywhere downstream — so a malformed field
behaves exactly like an absent one for every precondition check, and is
never used as a value and never raises. -/
theorem c10_malformed_is_absent (R : RealFns) (cold hot : PyDict) (cold_mix hot_mix : List PyDict)
    (q0 : ℚ) (schema : String) :
    (∀ raw : String, _to_float (PyVal.bad raw) = 0) ∧
    (∀ k : String, readQ [] k = 0) ∧
    (∀ (d : PyDict) (k : String), readQ (sanitizeD d) k = readQ d k) ∧
    calculate R (sanitizeD cold) (sanitizeD hot) (cold_mix.map sanitizeD)
        (hot_mix.map sanitizeD) q0 schema
      = calculate R cold hot cold_mix hot_mix q0 schema := by
  refine ⟨fun _ => rfl, fun _ => rfl, readQ_sanitize, ?_⟩
  simp only [calculate, step1q, step2t, readQ_sanitize, weighted_Cf_sanitize,
    to_components_sanitize]

/-! ### Claim C6 (amended): the "mean_delta" fallback, universally -/

/-- The LMTD fallback cannot fire when one of the two terminal temperature
differences is non-positive: both of its inner branches demand a positive
`dT1` and `dT2` (or their positive common value). -/
lemma lmtd_skip (R : RealFns) (q a b c d : ℚ) (out : CalcOut) (fs : FlowState)
    (hblock : c - b ≤ 0 ∨ d - a ≤ 0) :
    lmtdFallback R q a b c d out fs = out := by
  simp only [lmtdFallback]
  split
  · split
    · rename_i h1
      exfalso
      rcases hblock with h | h
      · linarith [h1.1]
      · linarith [h1.2.1]
    · split
      · rename_i h2
        exfalso
        rcases hblock with h | h
        · linarith [h2.2]
        · linarith [h2.2, h2.1]
      · rfl
  · rfl

/-- The "mean_delta" fallback fires whenever K is unset, σ was computed,
Q is known, and all four temperatures (hence both means) are available
with a positive mean difference. -/
lemma meanDelta_fires (q : ℚ) (out : CalcOut) (fs : FlowState)
    (hK : fs.K = 0) (hS : fs.Sigma ≠ 0) (hQ : fs.Q ≠ 0 ∨ q ≠ 0)
    (h1 : fs.T_in_hot ≠ 0) (h2 : fs.T_out_hot ≠ 0)
    (h3 : fs.T_in_cold ≠ 0) (h4 : fs.T_out_cold ≠ 0)
    (hth : 1 / 2 * (fs.T_in_hot + fs.T_out_hot) ≠ 0)
    (htc : 1 / 2 * (fs.T_in_cold + fs.T_out_cold) ≠ 0)
    (hd : 1 / 2 * (fs.T_in_hot + fs.T_out_hot) - 1 / 2 * (fs.T_in_cold + fs.T_out_cold) > 0) :
    meanDeltaFallback q out fs = { out with
      k := pyRound ((if fs.Q ≠ 0 then fs.Q else q) /
        (1 / 2 * (fs.T_in_hot + fs.T_out_hot) - 1 / 2 * (fs.T_in_cold + fs.T_out_cold))) 6,
      k_source := "mean_delta" } := by
  simp only [meanDeltaFallback]
  rw [if_pos (show fs.K = 0 ∧ fs.Sigma ≠ 0 ∧ (fs.Q ≠ 0 ∨ q ≠ 0) from ⟨hK, hS, hQ⟩)]
  rw [if_pos (show fs.T_in_hot ≠ 0 ∧ fs.T_out_hot ≠ 0 from ⟨h1, h2⟩)]
  rw [if_pos (show fs.T_in_cold ≠ 0 ∧ fs.T_out_cold ≠ 0 from ⟨h3, h4⟩)]
  dsimp only
  rw [if_pos (show 1 / 2 * (fs.T_in_hot + fs.T_out_hot) ≠ 0 ∧
    1 / 2 * (fs.T_in_cold + fs.T_out_cold) ≠ 0 from ⟨hth, htc⟩)]
  rw [if_pos hd]

/-- Claim C6 amended, for EVERY call: if the state solved by `full` has
K = 0, σ ≠ 0 and a known Q, all four of its temperatures are non-zero with
non-zero means and positive mean difference Δ, and one of the terminal
differences `t_in_hot - t_out_cold`, `t_out_hot - t_in_cold` (of the local
temperatures of `calculate`) is non-positive — so the later LMTD fallback,
which re-checks `fs.K` rather than the output field, cannot fire and
overwrite — then the output is k = round(Q/Δ, 6) with k_source
"mean_delta".  Both temperatures of BOTH streams must be known: there is no
"else the inlet alone" path (see the counterexample). -/
theorem c6_amended (R : RealFns) (cold hot : PyDict) (cold_mix hot_mix : List PyDict)
    (q0 : ℚ) (schema : String) (fs2 : FlowState)
    (hfull : full R
      { T_in_cold := readQ cold "t_in", T_out_cold := readQ cold "t_out",
        T_in_hot := readQ hot "t_in",
        T_out_hot := (step2t hot hot_mix (step1q cold hot cold_mix q0).1
          (step1q cold hot cold_mix q0).2).2,
        g_cold := readQ cold "m", g_hot := readQ hot "m",
        Q := (step1q cold hot cold_mix q0).2, schema := schema }
      (to_components cold_mix) (to_components hot_mix) = .ok fs2)
    (hK : fs2.K = 0) (hS : fs2.Sigma ≠ 0)
    (hQ : fs2.Q ≠ 0 ∨ (step1q cold hot cold_mix q0).2 ≠ 0)
    (h1 : fs2.T_in_hot ≠ 0) (h2 : fs2.T_out_hot ≠ 0)
    (h3 : fs2.T_in_cold ≠ 0) (h4 : fs2.T_out_cold ≠ 0)
    (hth : 1 / 2 * (fs2.T_in_hot + fs2.T_out_hot) ≠ 0)
    (htc : 1 / 2 * (fs2.T_in_cold + fs2.T_out_cold) ≠ 0)
    (hd : 1 / 2 * (fs2.T_in_hot + fs2.T_out_hot)
        - 1 / 2 * (fs2.T_in_cold + fs2.T_out_cold) > 0)
    (hblock : readQ hot "t_in" - readQ cold "t_out" ≤ 0 ∨
      (step2t hot hot_mix (step1q cold hot cold_mix q0).1
        (step1q cold hot cold_mix q0).2).2 - readQ cold "t_in" ≤ 0) :
    (calculate R cold hot cold_mix hot_mix q0 schema).k =
      pyRound ((if fs2.Q ≠ 0 then fs2.Q else (step1q cold hot cold_mix q0).2) /
        (1 / 2 * (fs2.T_in_hot + fs2.T_out_hot)
          - 1 / 2 * (fs2.T_in_cold + fs2.T_out_cold))) 6 ∧
    (calculate R cold hot cold_mix hot_mix q0 schema).k_source = "mean_delta" := by
  rw [calculate_eq_of_ok R cold hot cold_mix hot_mix q0 schema fs2 hfull]
  simp only [postProcess]
  rw [lmtd_skip R _ _ _ _ _ _ _ hblock]
  constructor
  · rw [(syncContact_proj _ _).2.2.2.1,
      meanDelta_fires _ _ _ hK hS hQ h1 h2 h3 h4 hth htc hd]
  · rw [(syncContact_proj _ _).2.2.2.2,
      meanDelta_fires _ _ _ hK hS hQ h1 h2 h3 h4 hth htc hd]

/-- The state `full` produces for the C6 witness scenario under `logOne`:
Schema1 left K at 0 (equal outlets), σ = round(4.2·1 + 4.2·1, 5) = 8.4. -/
def exSolvedC6 : FlowState :=
  { T_in_cold := 300, T_out_cold := 280, T_in_hot := 350, T_out_hot := 280,
    g_cold := 1, g_hot := 1, Q := 50, Sigma := 42 / 5, W_cold := 21 / 5, W_hot := 21 / 5,
    B := 10 / 21, schema := "Schema1" }

theorem c6_amended_witness :
    (full logOne
        { T_in_cold := readQ exColdC6 "t_in", T_out_cold := readQ exColdC6 "t_out",
          T_in_hot := readQ exHotC6 "t_in",
          T_out_hot := (step2t exHotC6 exMixC6 (step1q exColdC6 exHotC6 exMixC6 50).1
            (step1q exColdC6 exHotC6 exMixC6 50).2).2,
          g_cold := readQ exColdC6 "m", g_hot := readQ exHotC6 "m",
          Q := (step1q exColdC6 exHotC6 exMixC6 50).2, schema := "Schema1" }
        (to_components exMixC6) (to_components exMixC6) = .ok exSolvedC6 ∧
      exSolvedC6.K = 0 ∧ exSolvedC6.Sigma ≠ 0 ∧
      (step2t exHotC6 exMixC6 (step1q exColdC6 exHotC6 exMixC6 50).1
        (step1q exColdC6 exHotC6 exMixC6 50).2).2 - readQ exColdC6 "t_in" ≤ 0) ∧
    (calculate logOne exColdC6 exHotC6 exMixC6 exMixC6 50 "Schema1").k = 2 ∧
    (calculate logOne exColdC6 exHotC6 exMixC6 exMixC6 50 "Schema1").k_source
      = "mean_delta" := by
  have hfull : full logOne
      { T_in_cold := readQ exColdC6 "t_in", T_out_cold := readQ exColdC6 "t_out",
        T_in_hot := readQ exHotC6 "t_in",
        T_out_hot := (step2t exHotC6 exMixC6 (step1q exColdC6 exHotC6 exMixC6 50).1
          (step1q exColdC6 exHotC6 exMixC6 50).2).2,
        g_cold := readQ exColdC6 "m", g_hot := readQ exHotC6 "m",
        Q := (step1q exColdC6 exHotC6 exMixC6 50).2, schema := "Schema1" }
      (to_components exMixC6) (to_components exMixC6) = .ok exSolvedC6 := by
    norm_num +decide [step1q, step2t, full, full_setW, full_setAB, full_single, full_multi,
      schema_dispatch, _schema1, _schema2, _schema3, _schema4, _schema5, _sigma_dd, _k_dd,
      _sigma_db, _k_db, _sigma_cb, _k_cb, _sigma_cd, _k_cd, _get_contact_type,
      _capacity_from_components, weighted_Cf, to_components, readQ, dictGet0, _to_float,
      plog, pyRound, round_eq, logOne, exColdC6, exHotC6, exMixC6, exSolvedC6]
  have hblock : (step2t exHotC6 exMixC6 (step1q exColdC6 exHotC6 exMixC6 50).1
      (step1q exColdC6 exHotC6 exMixC6 50).2).2 - readQ exColdC6 "t_in" ≤ 0 := by
    norm_num +decide [step1q, step2t, readQ, dictGet0, _to_float, weighted_Cf, exColdC6,
      exHotC6, exMixC6]
  have h := c6_amended logOne exColdC6 exHotC6 exMixC6 exMixC6 50 "Schema1" exSolvedC6
    hfull rfl (by norm_num [exSolvedC6]) (Or.inl (by norm_num [exSolvedC6]))
    (by norm_num [exSolvedC6]) (by norm_num [exSolvedC6]) (by norm_num [exSolvedC6])
    (by norm_num [exSolvedC6]) (by norm_num [exSolvedC6]) (by norm_num [exSolvedC6])
    (by norm_num [exSolvedC6]) (Or.inr hblock)
  refine ⟨⟨hfull, rfl, by norm_num [exSolvedC6], hblock⟩, ?_, h.2⟩
  rw [h.1]
  norm_num [exSolvedC6, pyRound, round_eq]
